import Mathlib

/-!
Verification development for the `foowm` window manager
(`src/foowm/wm.py`, `src/foowm/constants.py`, `src/foowm/__main__.py`).

The Python source is shallowly embedded: every handler of
`FootronWindowManager` that the verified claims touch is translated into a
pure Lean function over an explicit `WMState`, returning the successor state
together with the list of display-server calls ("effects") the handler would
issue.  Python exceptions that can escape a handler (KeyError, ValueError,
TypeError) are modelled with `Except PyError`.

The repository's `types.py` is not part of the source tree that was provided;
the enum and record types it defines (`ClientType`, `DisplayScenario`,
`DisplayLayout`, `WindowGeometry`, `Client`, `ExtendedWMNormalHints`) are
modelled from the specification document, as are the few constants that
`wm.py` imports from `constants.py` but that the provided `constants.py` does
not define (`LOADER_WINDOW_NAME`, `DEFAULT_CLEAR_TYPES`).
-/

/-- Modelled from the spec: closed set of special window roles
(`ClientType` in `types.py`, §3 of the spec). -/
inductive ClientType
  | Placard
  | Loader
  | OffscreenSource
  | OffscreenHack
deriving DecidableEq, Repr

/-- Modelled from the spec: `DisplayScenario` — {Center, Production,
Fullscreen}; fixed for the process lifetime (spec §3, and the
`--scenario` choices in `__main__.py`). -/
inductive DisplayScenario
  | Center
  | Production
  | Fullscreen
deriving DecidableEq, Repr

/-- Modelled from the spec: `DisplayLayout` — mutable at runtime (spec §3).
`wm.py` references `DisplayLayout.Full` and `constants.py` references
`DisplayLayout.Fullscreen`, `DisplayLayout.Fit4k` and
`DisplayLayout.Production`, so the enum has at least these four members. -/
inductive DisplayLayout
  | Full
  | Fullscreen
  | Fit4k
  | Production
deriving DecidableEq, Repr

/-- Modelled from the spec: the Python enums are `str`-mixin enums whose
member values are the lowercased member names (the convention visible in
`__main__.py`, where `--scenario` accepts 'center', 'production',
'fullscreen').  The string value decides cross-enum `==` and hence dict
lookup in Python. -/
def DisplayScenario.value : DisplayScenario → String
  | .Center => "center"
  | .Production => "production"
  | .Fullscreen => "fullscreen"

/-- String value of a `DisplayLayout` member (see `DisplayScenario.value`). -/
def DisplayLayout.value : DisplayLayout → String
  | .Full => "full"
  | .Fullscreen => "fullscreen"
  | .Fit4k => "fit4k"
  | .Production => "production"

/-- Modelled from the spec: integer rectangle (x, y, width, height)
(`WindowGeometry` in `types.py`, spec §3). -/
structure WindowGeometry where
  x : Int
  y : Int
  width : Int
  height : Int
deriving DecidableEq, Repr

/-- Python exceptions that can escape the embedded functions. -/
inductive PyError
  | keyError
  | valueError
  | typeError
deriving DecidableEq, Repr

/-- `constants.py`: `OFFSCREEN_SOURCE_WINDOW_NAME`. -/
def OFFSCREEN_SOURCE_WINDOW_NAME : String := "FOOTRON_SOURCE_WINDOW"

/-- `constants.py`: `PLACARD_WINDOW_NAME`. -/
def PLACARD_WINDOW_NAME : String := "FOOTRON_PLACARD"

/-- Modelled from the spec: `wm.py` imports `LOADER_WINDOW_NAME` from
`constants.py` but the provided `constants.py` does not define it; the spec
only says a loader marker substring exists (§4.2).  The concrete text is a
stand-in; no claim depends on it. -/
def LOADER_WINDOW_NAME : String := "FOOTRON_LOADER"

/-- Does one of the two alternatives of the single pattern in
`OFFSCREEN_HACK_WINDOW_PATTERNS`, namely
`r".*is sharing (your screen|a window)\.?"`, match at the head of the
character list?  (The trailing `\.?` is optional and followed by nothing,
so it never constrains whether a match exists.) -/
def matchesHackLiteralAt (l : List Char) : Bool :=
  "is sharing your screen".data.isPrefixOf l || "is sharing a window".data.isPrefixOf l

/-- Model of `re.match(pattern, title)` for the one pattern in
`constants.py`'s `OFFSCREEN_HACK_WINDOW_PATTERNS`.  `re.match` anchors at
the start of the string; the leading `.*` matches any characters except
newline, so the pattern matches iff the literal alternative occurs at some
position reachable without crossing a newline. -/
def reMatchOffscreenHack : List Char → Bool
  | [] => false
  | c :: rest => matchesHackLiteralAt (c :: rest) || (c != '\n' && reMatchOffscreenHack rest)

/-- Model of the Python substring test `needle in hay`. -/
def containsSubAux (needle : List Char) : List Char → Bool
  | [] => needle.isEmpty
  | c :: rest => needle.isPrefixOf (c :: rest) || containsSubAux needle rest

/-- Model of the Python substring test `needle in hay` on `String`s. -/
def containsSub (needle hay : String) : Bool :=
  containsSubAux needle.data hay.data

/-- `wm.py` `FootronWindowManager._client_type_from_title` (lines 698-715).
`if not title` is true both for `None` and for the empty string. -/
def clientTypeFromTitle (title : Option String) : Option ClientType :=
  match title with
  | none => none
  | some t =>
    if t = "" then none
    else if reMatchOffscreenHack t.data then some ClientType.OffscreenHack
    else if containsSub OFFSCREEN_SOURCE_WINDOW_NAME t then some ClientType.OffscreenSource
    else if containsSub PLACARD_WINDOW_NAME t then some ClientType.Placard
    else if containsSub LOADER_WINDOW_NAME t then some ClientType.Loader
    else none

/-- The keyword arguments a `LAYOUT_GEOMETRY` callable can receive.  The
Python lambdas are declared `lambda *, width, height, **_:` etc.; a call
that omits a required keyword raises `TypeError`, which the entry functions
below surface through `Except`. -/
structure GeomArgs where
  width : Option Nat := none
  height : Option Nat := none
  geometry : Option WindowGeometry := none
  layout : Option DisplayLayout := none

/-- One value of the `LAYOUT_GEOMETRY` table: either a literal 4-tuple or a
callable of keyword arguments. -/
inductive GeometryEntry
  | const (x y w h : Int)
  | fn (f : GeomArgs → Except PyError (Int × Int × Int × Int))

/-- Applies a `GeometryEntry` the way `_client_geometry` does: a tuple is
splatted into `WindowGeometry`, a callable is invoked. -/
def applyGeometryEntry (e : GeometryEntry) (a : GeomArgs) : Except PyError WindowGeometry :=
  match e with
  | .const x y w h => .ok ⟨x, y, w, h⟩
  | .fn f => (f a).map fun t => ⟨t.1, t.2.1, t.2.2.1, t.2.2.2⟩

/-- `constants.py` `LAYOUT_GEOMETRY[ClientType.Placard]` (lines 55-64).
The inner dict is keyed by `DisplayLayout` members.  The fullscreen entry
computes `int(width * 0.2)`: for every width the X protocol can report
(a 16-bit cardinal) the float computation equals floor division by 5, which
is how it is modelled here. -/
def placardGeometryTable : List (DisplayLayout × GeometryEntry) :=
  [ (DisplayLayout.Fullscreen, .fn fun a =>
      match a.width, a.height with
      | some w, some h => .ok (0, 0, ((w / 5 : Nat) : Int), (h : Int))
      | _, _ => .error .typeError),
    (DisplayLayout.Fit4k, .const 0 0 715 1758),
    (DisplayLayout.Production, .const 0 0 715 1758) ]

/-- `constants.py` `LAYOUT_GEOMETRY[None]` (lines 77-81). -/
def genericGeometryTable : List (DisplayLayout × GeometryEntry) :=
  [ (DisplayLayout.Fullscreen, .fn fun a =>
      match a.width, a.height with
      | some w, some h => .ok (0, 0, (w : Int), (h : Int))
      | _, _ => .error .typeError),
    (DisplayLayout.Fit4k, .const 715 0 3125 1758),
    (DisplayLayout.Production, .fn fun a =>
      match a.height with
      | some h => .ok (978, 0, 3125, (h : Int))
      | none => .error .typeError) ]

/-- `constants.py` `LAYOUT_GEOMETRY[ClientType.OffscreenSource]`
(lines 65-70): requires the `width` and `geometry` keywords. -/
def offscreenSourceEntry : GeometryEntry :=
  .fn fun a =>
    match a.width, a.geometry with
    | some w, some g => .ok ((w : Int), 0, g.width, g.height)
    | _, _ => .error .typeError

/-- `constants.py` `LAYOUT_GEOMETRY[ClientType.OffscreenHack]`
(lines 71-76): requires the `height` and `geometry` keywords. -/
def offscreenHackEntry : GeometryEntry :=
  .fn fun a =>
    match a.height, a.geometry with
    | some h, some g => .ok (0, (h : Int), g.width, g.height)
    | _, _ => .error .typeError

/-- Either a plain entry or a scenario-selected sub-dict — the two shapes a
`LAYOUT_GEOMETRY` value can have (`_client_geometry` tests
`isinstance(geometry_factory, dict)`). -/
inductive GeometryFactory
  | table (t : List (DisplayLayout × GeometryEntry))
  | entry (e : GeometryEntry)

/-- `constants.py` `LAYOUT_GEOMETRY` (lines 54-82), as a lookup.  The dict
has keys `ClientType.Placard`, `ClientType.OffscreenSource`,
`ClientType.OffscreenHack` and `None`; looking up `ClientType.Loader`
raises `KeyError`. -/
def LAYOUT_GEOMETRY : Option ClientType → Except PyError GeometryFactory
  | some .Placard => .ok (.table placardGeometryTable)
  | some .OffscreenSource => .ok (.entry offscreenSourceEntry)
  | some .OffscreenHack => .ok (.entry offscreenHackEntry)
  | some .Loader => .error .keyError
  | none => .ok (.table genericGeometryTable)

/-- Model of `geometry_factory[self._display_scenario]` in
`_client_geometry` (wm.py line 738).  The inner dicts are keyed by
`DisplayLayout` members but indexed with a `DisplayScenario` member; both
are `str`-mixin enums, whose hashing and equality go through the member
name/string value, so the lookup succeeds exactly when some key has the
same string value as the scenario, and raises `KeyError` otherwise (in
particular for `DisplayScenario.Center`, which matches no key). -/
def lookupByScenario (table : List (DisplayLayout × GeometryEntry))
    (scenario : DisplayScenario) : Except PyError GeometryEntry :=
  match table.find? (fun e => e.1.value == scenario.value) with
  | some e => .ok e.2
  | none => .error .keyError

/-- Modelled from the spec: the `Client` record of `types.py` (spec §3).
Window handles are represented by their integer X ids.  `created_at` is an
epoch-milliseconds timestamp (comparisons between timestamps are all the
code does with it). -/
structure Client where
  target : Nat
  parent : Nat
  geometry : WindowGeometry
  desired_geometry : WindowGeometry
  title : Option String
  type : Option ClientType
  floating : Bool
  created_at : Int
  ignore_unmaps : Nat := 0
deriving DecidableEq, Repr

/-- Modelled from the spec: §3 says the experience viewport contains all
ordinary-content and Loader client wrappers, which is exactly the set of
clients the manage/retitle code reparents into the viewport (types with
value `None` or `Loader`); `types.py` is absent, so `in_experience_viewport`
is modelled as that derived property. -/
def Client.in_experience_viewport (c : Client) : Bool :=
  c.type = none || c.type = some ClientType.Loader

/-- The mutable fields of `FootronWindowManager` that the embedded handlers
read or write. -/
structure WMState where
  layout : DisplayLayout
  display_scenario : DisplayScenario
  width : Nat
  height : Nat
  root : Nat
  experience_viewport : Nat
  placard : Option Client
  loader : Option Client
  clients : List (Nat × Client)
  client_parents : List Nat
  debug_logging : Bool
deriving DecidableEq, Repr

/-- A display-server call issued by a handler.  Only the calls the claims
talk about are distinguished; property writes are summarised by the window
and property name. -/
inductive Effect
  | setWorkarea (x y w h : Int)
  | configureWindow (id : Nat) (x y w h : Int)
  | killClient (id : Nat)
  | destroyWindow (id : Nat)
  | reparentWindow (id : Nat) (newParent : Nat) (x y : Int)
  | raiseWindow (id : Nat)
  | sync
  | setClientList (ids : List Nat)
  | setActiveWindow (id : Nat)
  | setInputFocus (id : Nat)
  | createWindow (id : Nat) (x y w h : Int)
  | mapWindow (id : Nat)
  | changeWindowAttributes (id : Nat)
  | changeProperty (id : Nat) (name : String)
deriving DecidableEq, Repr

/-- Python `dict` lookup on an association list (first matching key). -/
def dictLookup {α β : Type} [BEq α] (k : α) : List (α × β) → Option β
  | [] => none
  | (k', v) :: rest => if k' == k then some v else dictLookup k rest

/-- In-place mutation of the client stored under a key of the `_clients`
dict (Python dicts preserve insertion order through value updates). -/
def updateClientEntry (clients : List (Nat × Client)) (k : Nat) (c : Client) :
    List (Nat × Client) :=
  clients.map fun p => if p.1 = k then (k, c) else p

/-- `del self._clients[window_id]`. -/
def removeClientEntry (clients : List (Nat × Client)) (k : Nat) :
    List (Nat × Client) :=
  clients.filter fun p => p.1 != k

/-- The target-window ids of all managed clients, in registry order
(`_set_ewmh_clients_list`, wm.py lines 752-762). -/
def clientIds (s : WMState) : List Nat :=
  s.clients.map fun p => p.2.target

/-- `wm.py` `_preserve_window_order` (lines 295-298): raise the loader
wrapper if present, then the placard wrapper if present, then sync. -/
def preserveWindowOrder (s : WMState) : List Effect :=
  (match s.loader with
    | some c => [Effect.raiseWindow c.parent]
    | none => []) ++
  (match s.placard with
    | some c => [Effect.raiseWindow c.parent]
    | none => []) ++
  [Effect.sync]

/-- `wm.py` `_client_geometry` (lines 726-750).  The method reads the
manager's `_display_scenario`, `_width`, `_height` and `_layout`, hence the
`WMState` argument.  `KeyError` escapes for a `Loader` client type (no such
key in `LAYOUT_GEOMETRY`) and for scenario-less inner-dict lookups
(`DisplayScenario.Center`). -/
def clientGeometry (s : WMState) (desired_geometry : WindowGeometry)
    (client_type : Option ClientType) (floating : Bool) :
    Except PyError WindowGeometry :=
  if client_type.isNone && floating then .ok desired_geometry
  else do
    let factory ← LAYOUT_GEOMETRY client_type
    let entry ← match factory with
      | .table t => lookupByScenario t s.display_scenario
      | .entry e => .ok e
    applyGeometryEntry entry
      { width := some s.width, height := some s.height,
        geometry := some desired_geometry, layout := some s.layout }

/-- `wm.py` `scale_client` (lines 782-811): configure the wrapper (at the
origin when the client lives in the experience viewport), configure the
target, then preserve the stacking order.  Width and height are clamped to
at least 1.  Protocol errors inside are caught and logged, so the model
returns effects only. -/
def scaleClient (s : WMState) (client : Client) (geometry : WindowGeometry) :
    List Effect :=
  let w := max geometry.width 1
  let h := max geometry.height 1
  [Effect.configureWindow client.parent
      (if client.in_experience_viewport then 0 else geometry.x)
      (if client.in_experience_viewport then 0 else geometry.y) w h,
   Effect.configureWindow client.target 0 0 w h] ++
  preserveWindowOrder s

/-- Modelled from the spec: `wm.py` imports `DEFAULT_CLEAR_TYPES` from
`constants.py` but the provided `constants.py` does not define it; the spec
(§4.6) only says `include_types` defaults to "a fixed set".  The viewport
holds ordinary (`None`-typed) and Loader content, so that fixed set is
modelled as those two; no claim depends on the choice. -/
def DEFAULT_CLEAR_TYPES : List (Option ClientType) :=
  [none, some ClientType.Loader]

/-- The `for client in list(self._clients.values())` loop of
`clear_viewport` (wm.py lines 682-691): returns the kill-request effects in
iteration order together with the `windows_killed` and `windows_skipped`
counters. -/
def clearViewportLoop (clear_types : List (Option ClientType)) (before : Int) :
    List (Nat × Client) → List Effect × Nat × Nat
  | [] => ([], 0, 0)
  | (_, c) :: rest =>
    let (effs, killed, skipped) := clearViewportLoop clear_types before rest
    if !clear_types.contains c.type then (effs, killed, skipped)
    else if before < c.created_at then (effs, killed, skipped + 1)
    else (Effect.killClient c.target :: effs, killed + 1, skipped)

/-- `wm.py` `clear_viewport` (lines 670-696).  `before` is the cutoff as
epoch milliseconds (the command channel builds the datetime from a
milliseconds integer).  The source parameter named `include` is rendered
`include_types` because `include` is a Lean keyword.  Returns the unchanged
state, the issued display-server calls, and the two diagnostic counters the
source logs. -/
def clearViewport (before : Int) (include_types : Option (List (Option ClientType)))
    (s : WMState) : WMState × List Effect × Nat × Nat :=
  let clear_types := include_types.getD DEFAULT_CLEAR_TYPES
  let (kills, killed, skipped) := clearViewportLoop clear_types before s.clients
  (s, kills ++ [Effect.setClientList (clientIds s)] ++ preserveWindowOrder s,
   killed, skipped)

/-- `wm.py` `_setup_workarea` (lines 228-239): re-publish the work-area from
`LAYOUT_GEOMETRY[None][DisplayScenario.Production](layout=self._layout)`.
The selected entry is the production lambda, which requires the `height`
keyword; the call passes only `layout`, so it raises `TypeError`. -/
def setupWorkarea (s : WMState) : Except PyError (List Effect) := do
  let entry ← lookupByScenario genericGeometryTable DisplayScenario.Production
  let g ← applyGeometryEntry entry { layout := some s.layout }
  .ok [Effect.setWorkarea g.x g.y g.width g.height]

/-- `wm.py` `_scale_experience_viewport_window` (lines 764-780): configure
the viewport window with clamped width/height (protocol errors are caught
inside). -/
def scaleExperienceViewport (s : WMState) (g : WindowGeometry) : List Effect :=
  [Effect.configureWindow s.experience_viewport g.x g.y
    (max g.width 1) (max g.height 1)]

/-- The per-client loop of `_update_viewport_geometry` (wm.py lines
267-277): skip clients outside the viewport, skip clients created at or
before the cutoff when one is given, recompute and apply the geometry of
the rest.  Returns the updated registry, the effects, and the
`windows_resized` counter.  A `KeyError` from `_client_geometry`
propagates; the partial mutations already performed are not observable
afterwards because the process dies, so the model drops them. -/
def updateClientsGeometry (s : WMState) (after : Option Int) :
    List (Nat × Client) → Except PyError (List (Nat × Client) × List Effect × Nat)
  | [] => .ok ([], [], 0)
  | (wid, c) :: rest =>
    if !c.in_experience_viewport then do
      let (rest', effs, n) ← updateClientsGeometry s after rest
      .ok ((wid, c) :: rest', effs, n)
    else
      match after with
      | some t =>
        if c.created_at ≤ t then do
          let (rest', effs, n) ← updateClientsGeometry s after rest
          .ok ((wid, c) :: rest', effs, n)
        else do
          let g ← clientGeometry s c.desired_geometry c.type c.floating
          let c' := { c with geometry := g }
          let (rest', effs, n) ← updateClientsGeometry s after rest
          .ok ((wid, c') :: rest', scaleClient s c' g ++ effs, n + 1)
      | none => do
        let g ← clientGeometry s c.desired_geometry c.type c.floating
        let c' := { c with geometry := g }
        let (rest', effs, n) ← updateClientsGeometry s after rest
        .ok ((wid, c') :: rest', scaleClient s c' g ++ effs, n + 1)

/-- `wm.py` `_update_viewport_geometry` (lines 258-279): rescale the
experience viewport from the generic table keyed by the display scenario,
then recompute every viewport-resident client newer than the cutoff, then
preserve the stacking order. -/
def updateViewportGeometry (after : Option Int) (s : WMState) :
    Except PyError (WMState × List Effect) := do
  let entry ← lookupByScenario genericGeometryTable s.display_scenario
  let g ← applyGeometryEntry entry
    { width := some s.width, height := some s.height, layout := some s.layout }
  let vEffs := scaleExperienceViewport s g
  let (clients', cEffs, _) ← updateClientsGeometry s after s.clients
  let s' := { s with clients := clients' }
  .ok (s', vEffs ++ cEffs ++ preserveWindowOrder s')

/-- `wm.py` `set_layout` (lines 86-96): no-op when the layout is unchanged;
otherwise store the new layout, republish the work-area and update the
viewport geometry. -/
def setLayout (layout : DisplayLayout) (after : Option Int) (s : WMState) :
    Except PyError (WMState × List Effect) :=
  if layout = s.layout then .ok (s, [])
  else do
    let s1 := { s with layout := layout }
    let wEffs ← setupWorkarea s1
    let (s2, vEffs) ← updateViewportGeometry after s1
    .ok (s2, wEffs ++ vEffs)

/-- `wm.py` `_handle_unmap_notify` (lines 323-357).  Wrapper-window events
are ignored; unknown windows are ignored; a positive `ignore_unmaps`
counter is decremented and the event suppressed; otherwise the Placard or
Loader singleton is set to `None` when the unmapped client's *type* is
Placard or Loader, the wrapper id is removed from `_client_parents`
(`set.remove` raises `KeyError` when it is absent), the wrapper destroyed,
the client deleted from the registry, the client list republished and the
stacking order restored. -/
def handleUnmapNotify (window : Nat) (s : WMState) :
    Except PyError (WMState × List Effect) :=
  if s.client_parents.contains window then .ok (s, [])
  else
    match dictLookup window s.clients with
    | none => .ok (s, [])
    | some client =>
      if client.ignore_unmaps > 0 then
        let client1 := { client with ignore_unmaps := client.ignore_unmaps - 1 }
        .ok ({ s with clients := updateClientEntry s.clients window client1 }, [])
      else
        let s1 :=
          if client.type = some ClientType.Placard then { s with placard := none }
          else if client.type = some ClientType.Loader then { s with loader := none }
          else s
        if s1.client_parents.contains client.parent then
          let s2 := { s1 with
            client_parents := s1.client_parents.erase client.parent,
            clients := removeClientEntry s1.clients window }
          .ok (s2, [Effect.destroyWindow client.parent,
                    Effect.setClientList (clientIds s2)] ++ preserveWindowOrder s2)
        else .error .keyError

/-- The property atoms `_handle_property_notify` distinguishes: the two
title atoms (`_NET_WM_NAME` / `WM_NAME`), `WM_NORMAL_HINTS`,
`_NET_WM_STATE`, and anything else. -/
inductive PropAtom
  | titleAtom
  | normalHints
  | netWmState
  | otherAtom
deriving DecidableEq, Repr

/-- Modelled from the spec: the WM_NORMAL_HINTS struct the source reads
(`ExtendedWMNormalHints` in `types.py`); only the fields the handlers use
are kept.  `flags` is the X size-hints flag bitmask. -/
structure ExtendedWMNormalHints where
  flags : Nat
  x : Int
  y : Int
  max_width : Int
  max_height : Int
deriving DecidableEq, Repr

/-- `Xutil.PPosition`. -/
def PPosition : Nat := 4

/-- `Xutil.PMaxSize`. -/
def PMaxSize : Nat := 32

/-- `wm.py` `_handle_property_notify` (lines 407-492).  The values the
source fetches from the display server while handling the event — the
window's current title and its WM_NORMAL_HINTS struct — are inputs of the
model (`fetchedTitle`, `fetchedHints`).

Faithful details worth noting:
* on a title change the new title is stored even when the type is
  unchanged;
* on a type change, geometry is recomputed (which can raise `KeyError`,
  e.g. for the Center scenario or a Loader type), the client is rescaled
  and its wrapper reparented to the root (Placard/OffscreenSource, the
  Placard singleton being set) or into the experience viewport
  (`None`/Loader, the Loader singleton being set);
* on a WM_NORMAL_HINTS change, the `desired_geometry` update (and the
  accompanying `_preserve_window_order` call) sit inside the
  `if self._debug_logging:` block of the source (lines 474-485), so they
  run only when debug logging is enabled, and no size-hints flag check is
  performed there;
* on a `_NET_WM_STATE` change the current geometry is force-reapplied. -/
def handlePropertyNotify (window : Nat) (isDelete : Bool) (atom : PropAtom)
    (fetchedTitle : Option String) (fetchedHints : Option ExtendedWMNormalHints)
    (s : WMState) : Except PyError (WMState × List Effect) :=
  if s.client_parents.contains window then .ok (s, [])
  else
    match dictLookup window s.clients with
    | none => .ok (s, [])
    | some client =>
      if isDelete then .ok (s, [])
      else
        match atom with
        | .titleAtom =>
          let old_type := client.type
          let client1 := { client with
            title := fetchedTitle, type := clientTypeFromTitle fetchedTitle }
          if old_type = client1.type then
            .ok ({ s with clients := updateClientEntry s.clients window client1 }, [])
          else do
            let g ← clientGeometry s client1.desired_geometry client1.type client1.floating
            let client2 := { client1 with geometry := g }
            let sA := { s with clients := updateClientEntry s.clients window client2 }
            let scaleEffs := scaleClient sA client2 g
            if client2.type = some ClientType.Placard
                ∨ client2.type = some ClientType.OffscreenSource then
              let sB := if client2.type = some ClientType.Placard then
                  { sA with placard := some client2 } else sA
              .ok (sB, scaleEffs ++
                [Effect.reparentWindow client2.parent sB.root g.x g.y, Effect.sync])
            else
              let sB := if client2.type = some ClientType.Loader then
                  { sA with loader := some client2 } else sA
              .ok (sB, scaleEffs ++
                [Effect.reparentWindow client2.parent sB.experience_viewport g.x g.y,
                 Effect.sync])
        | .normalHints =>
          match fetchedHints with
          | none => .ok (s, [])
          | some hints =>
            if s.debug_logging then
              let client1 := { client with desired_geometry :=
                ⟨hints.x, hints.y, hints.max_width, hints.max_height⟩ }
              .ok ({ s with clients := updateClientEntry s.clients window client1 },
                   preserveWindowOrder s)
            else .ok (s, [])
        | .netWmState => .ok (s, scaleClient s client client.geometry)
        | .otherAtom => .ok (s, [])

/-- `wm.py` `_handle_configure_notify` (lines 359-380): a configure notify
for the root window updates the cached screen dimensions; nothing else
happens. -/
def handleConfigureNotify (window : Nat) (width height : Nat) (s : WMState) :
    WMState :=
  if window = s.root then { s with width := width, height := height } else s

/-- `wm.py` `_handle_configure_request` (lines 382-405): for a tracked
client, store the requested rectangle as `desired_geometry`, recompute the
authoritative geometry and apply it. -/
def handleConfigureRequest (window : Nat) (x y w h : Int) (s : WMState) :
    Except PyError (WMState × List Effect) :=
  if s.client_parents.contains window then .ok (s, [])
  else
    match dictLookup window s.clients with
    | none => .ok (s, [])
    | some client => do
      let desired : WindowGeometry := ⟨x, y, w, h⟩
      let g ← clientGeometry s desired client.type client.floating
      let client1 := { client with desired_geometry := desired, geometry := g }
      let s' := { s with clients := updateClientEntry s.clients window client1 }
      .ok (s', scaleClient s' client1 g)

/-- `constants.py` `FLOATING_WINDOW_TYPES`, with atoms represented by their
`NetAtom` member names (the interned integer ids are opaque; only identity
matters). -/
def FLOATING_WINDOW_TYPES : List String :=
  ["WmWindowTypeDock", "WmWindowTypeToolbar", "WmWindowTypeUtility",
   "WmWindowTypeDialog", "WmWindowTypeMenu", "WmWindowTypeSplash"]

/-- `constants.py` `FLOATING_WINDOW_STATES` (same representation). -/
def FLOATING_WINDOW_STATES : List String :=
  ["WmStateModal", "WmStateAbove", "WmStateSticky"]

/-- The data `_handle_map_request` / `_manage_new_window` read from the
display server for the new window, passed to the model as event payload:
the attribute fetch (`none` when it raises an `XError`, otherwise the
`override_redirect` flag), the first atom of `_NET_WM_WINDOW_TYPE` when the
property exists, the `_NET_WM_STATE` atom list when it exists, the
WM_NORMAL_HINTS struct, the geometry fetch (`none` when it raises
`BadDrawable`), the title, the wrapper id the server will assign to the
created parent window, and the current time in epoch milliseconds. -/
structure MapRequestData where
  window : Nat
  attrs : Option Bool
  window_type : Option String
  ewmh_state : Option (List String)
  hints : Option ExtendedWMNormalHints
  x_geometry : Option WindowGeometry
  title : Option String
  parent_id : Nat
  now : Int
deriving DecidableEq, Repr

/-- `wm.py` `_manage_new_window` (lines 510-668).  Notable faithful
details:
* `floating` is set from the window-type atom or any floating EWMH state
  atom, and cleared again when the title classifies the window
  (`floating = floating and client_type is None`);
* `normal_hints_geometry` is computed inside the `if self._debug_logging:`
  block of the source (lines 556-565), so without debug logging the desired
  geometry always comes from `get_geometry()`, and with it the hints are
  used when `flags & (PPosition | PMaxSize)` is non-zero (either flag
  suffices);
* `_client_geometry` can raise `KeyError` (Loader type, or Center
  scenario), which escapes the handler;
* a Placard or Loader classification overwrites the corresponding
  singleton unconditionally. -/
def manageNewWindow (d : MapRequestData) (s : WMState) :
    Except PyError (WMState × List Effect) :=
  if (dictLookup d.window s.clients).isSome then .ok (s, [])
  else
    let floating0 :=
      match d.window_type with
      | some atom_id => FLOATING_WINDOW_TYPES.contains atom_id
      | none => false
    let floating1 := floating0 ||
      (match d.ewmh_state with
       | some atoms => FLOATING_WINDOW_STATES.any fun a => atoms.contains a
       | none => false)
    let normal_hints_geometry : Option WindowGeometry :=
      match d.hints with
      | some hints =>
        if s.debug_logging && (hints.flags &&& (PPosition ||| PMaxSize) != 0) then
          some ⟨hints.x, hints.y, hints.max_width, hints.max_height⟩
        else none
      | none => none
    match d.x_geometry with
    | none => .ok (s, [])
    | some x_geometry => do
      let client_type := clientTypeFromTitle d.title
      let floating := floating1 && client_type.isNone
      let desired_geometry := normal_hints_geometry.getD x_geometry
      let g ← clientGeometry s desired_geometry client_type floating
      let client : Client :=
        { target := d.window, parent := d.parent_id, geometry := g,
          desired_geometry := desired_geometry, title := d.title,
          type := client_type, floating := floating, created_at := d.now,
          ignore_unmaps := 0 }
      let s1 := { s with client_parents := s.client_parents.insert d.parent_id }
      let reparentEffs :=
        if client_type = none ∨ client_type = some ClientType.Loader then
          [Effect.reparentWindow d.parent_id s.experience_viewport g.x g.y,
           Effect.sync]
        else []
      let s2 :=
        if client_type = some ClientType.Placard then { s1 with placard := some client }
        else if client_type = some ClientType.Loader then { s1 with loader := some client }
        else s1
      let s3 := { s2 with clients := s2.clients ++ [(d.window, client)] }
      .ok (s3,
        [Effect.changeWindowAttributes d.window,
         Effect.changeProperty d.window "WM_STATE",
         Effect.changeProperty d.window "_XEMBED_INFO",
         Effect.createWindow d.parent_id 0 0 1 1,
         Effect.reparentWindow d.window d.parent_id 0 0,
         Effect.mapWindow d.parent_id, Effect.sync] ++
        reparentEffs ++ scaleClient s2 client g ++
        [Effect.mapWindow d.window] ++ preserveWindowOrder s2 ++
        [Effect.setClientList (clientIds s3)])

/-- `wm.py` `_handle_map_request` (lines 300-321): skip when the attribute
fetch failed, when the window has override-redirect set, or when it is a
tracked wrapper.  The source also compares `ev.window.id` (an `int`) with
`self._experience_viewport` (a `Window` object); that comparison is never
true in Python, so it is not modelled. -/
def handleMapRequest (d : MapRequestData) (s : WMState) :
    Except PyError (WMState × List Effect) :=
  match d.attrs with
  | none => .ok (s, [])
  | some override_redirect =>
    if override_redirect || s.client_parents.contains d.window then .ok (s, [])
    else manageNewWindow d s

/-- `wm.py` `_handle_enter_notify` (lines 494-501): publish the entered
window as active and give it input focus. -/
def handleEnterNotify (window : Nat) (s : WMState) : WMState × List Effect :=
  (s, [Effect.setActiveWindow window, Effect.setInputFocus window])

/-- A JSON primitive, as delivered by the zmq `recv_json` transport.  The
command messages only ever nest one level (a list of type-name strings), so
list elements are primitives. -/
inductive JsonPrim
  | str (s : String)
  | int (n : Int)
  | bool (b : Bool)
  | null
deriving DecidableEq, Repr

/-- A JSON value stored under a key of an inbound message object. -/
inductive JsonValue
  | str (s : String)
  | int (n : Int)
  | bool (b : Bool)
  | null
  | list (xs : List JsonPrim)
deriving DecidableEq, Repr

/-- An inbound command-channel message: a JSON object, i.e. a key/value
map. -/
def Message := List (String × JsonValue)

/-- Python `isinstance(v, str)`. -/
def JsonValue.isStr : JsonValue → Bool
  | .str _ => true
  | _ => false

/-- Python `isinstance(v, int)` — `bool` is a subclass of `int` in Python,
so booleans pass this check. -/
def JsonValue.isInt : JsonValue → Bool
  | .int _ => true
  | .bool _ => true
  | _ => false

/-- The integer value of a JSON value that passed `isinstance(v, int)`
(`True` is 1, `False` is 0). -/
def JsonValue.asInt : JsonValue → Int
  | .int n => n
  | .bool b => if b then 1 else 0
  | _ => 0

/-- `DisplayLayout(layout)`: enum construction from the string value;
raises `ValueError` for a string that is no member value. -/
def parseDisplayLayout (v : String) : Option DisplayLayout :=
  if v = "full" then some DisplayLayout.Full
  else if v = "fullscreen" then some DisplayLayout.Fullscreen
  else if v = "fit4k" then some DisplayLayout.Fit4k
  else if v = "production" then some DisplayLayout.Production
  else none

/-- Modelled from the spec: `ClientType(name)` enum construction.  The
member values are the snake-cased member names (the same convention as the
other `str` enums of the missing `types.py`). -/
def parseClientType (v : String) : Option ClientType :=
  if v = "placard" then some ClientType.Placard
  else if v = "loader" then some ClientType.Loader
  else if v = "offscreen_source" then some ClientType.OffscreenSource
  else if v = "offscreen_hack" then some ClientType.OffscreenHack
  else none

/-- `list(map(ClientType, include))` in `_handle_message` (wm.py line 886).
A non-list `include` raises: iterating an `int`/`bool`/`None` raises
`TypeError`; iterating a string yields 1-character strings, each of which
fails `ClientType(...)` with `ValueError` (an empty string yields the empty
list).  A list element that is not a valid member value raises
`ValueError`. -/
def parseClientTypes : JsonValue → Except PyError (List ClientType)
  | .list xs =>
    xs.mapM fun v =>
      match v with
      | .str nm =>
        match parseClientType nm with
        | some t => .ok t
        | none => .error .valueError
      | _ => .error .valueError
  | .str nm => if nm = "" then .ok [] else .error .valueError
  | _ => .error .typeError

/-- `message[key] if key in message else None` for the optional fields of
`_handle_message` (wm.py lines 861, 883): a JSON `null` value decodes to
Python `None`, which the subsequent `is not None` guards cannot tell from
an absent key. -/
def lookupOptional (key : String) (message : Message) : Option JsonValue :=
  match dictLookup key message with
  | some JsonValue.null => none
  | o => o

/-- `wm.py` `_handle_message` (lines 848-890).  `message["type"]` is read
without a containment check, so a message with no `type` key raises
`KeyError`.  The `layout` branch validates `layout` (present, string) and
`after` (absent, JSON null, or int — an explicit null acts as an absent
cutoff) and drops the message otherwise; it then builds
`DisplayLayout(layout)` (which raises `ValueError` on a bad value) and
calls `set_layout`.  The `clear_viewport` branch validates `before`
(present, int), leaves `include` unvalidated — `list(map(ClientType,
include))` raises on malformed non-null input, while a null `include`
selects the default clear set — and calls `clear_viewport`.  Any other
`type` value is logged and dropped. -/
def handleMessage (message : Message) (s : WMState) :
    Except PyError (WMState × List Effect) :=
  match dictLookup "type" message with
  | none => .error .keyError
  | some message_type =>
    if message_type = JsonValue.str "layout" then
      match dictLookup "layout" message with
      | none => .ok (s, [])
      | some layout =>
        match layout with
        | .str layoutStr =>
          match lookupOptional "after" message with
          | some a =>
            if a.isInt then
              match parseDisplayLayout layoutStr with
              | some dl => setLayout dl (some a.asInt) s
              | none => .error .valueError
            else .ok (s, [])
          | none =>
            match parseDisplayLayout layoutStr with
            | some dl => setLayout dl none s
            | none => .error .valueError
        | _ => .ok (s, [])
    else if message_type = JsonValue.str "clear_viewport" then
      match dictLookup "before" message with
      | none => .ok (s, [])
      | some before =>
        if before.isInt then
          match lookupOptional "include" message with
          | some inc =>
            match parseClientTypes inc with
            | .ok types =>
              let r := clearViewport before.asInt (some (types.map some)) s
              .ok (r.1, r.2.1)
            | .error e => .error e
          | none =>
            let r := clearViewport before.asInt none s
            .ok (r.1, r.2.1)
        else .ok (s, [])
    else .ok (s, [])

/-- `wm.py` `_process_messages` (lines 892-897): pop and handle queued
messages until the queue is empty.  The queue contents at the moment the
drain starts are the list argument; an exception escaping
`_handle_message` escapes the drain. -/
def processMessages : WMState → List Message → Except PyError (WMState × List Effect)
  | s, [] => .ok (s, [])
  | s, m :: rest => do
    let (s1, e1) ← handleMessage m s
    let (s2, e2) ← processMessages s1 rest
    .ok (s2, e1 ++ e2)

/-- One protocol event, carrying the data the corresponding handler reads
from the display server.  `unknown` stands for every event code outside the
dispatch table of `FootronWindowManager.__init__` (wm.py lines 61-68). -/
inductive XEvent
  | mapRequest (d : MapRequestData)
  | unmapNotify (window : Nat)
  | configureNotify (window : Nat) (width height : Nat)
  | configureRequest (window : Nat) (x y w h : Int)
  | propertyNotify (window : Nat) (isDelete : Bool) (atom : PropAtom)
      (fetchedTitle : Option String) (fetchedHints : Option ExtendedWMNormalHints)
  | enterNotify (window : Nat)
  | unknown (code : Nat)

/-- Dispatch of `_loop` (wm.py line 909): route the event to its
configured handler.  The `unknown` case only keeps the function total —
`loopStep` below checks `hasHandler` first, mirroring the membership test
and `continue` at wm.py lines 902-906, so unknown kinds are never
dispatched. -/
def handleEvent : XEvent → WMState → Except PyError (WMState × List Effect)
  | .mapRequest d, s => handleMapRequest d s
  | .unmapNotify w, s => handleUnmapNotify w s
  | .configureNotify w width height, s => .ok (handleConfigureNotify w width height s, [])
  | .configureRequest w x y cw ch, s => handleConfigureRequest w x y cw ch s
  | .propertyNotify w d a t h, s => handlePropertyNotify w d a t h s
  | .enterNotify w, s => .ok (handleEnterNotify w s)
  | .unknown _, s => .ok (s, [])

/-- `ev.type in self._event_handlers` (wm.py line 902): the dispatch table
built in `__init__` holds exactly the six configured event kinds. -/
def hasHandler : XEvent → Bool
  | .unknown _ => false
  | _ => true

/-- One iteration of `wm.py` `_loop` (lines 899-910).  An event kind with
no configured handler is logged and hits `continue` (line 906), which
skips `_process_messages` — the queue is left untouched for a later
iteration.  A configured kind is dispatched and then every message queued
at that point is drained before the loop blocks again.  `msgs` is the
queue contents when the iteration starts; the third component of the
result is what remains of it when the iteration ends. -/
def loopStep (ev : XEvent) (msgs : List Message) (s : WMState) :
    Except PyError (WMState × List Effect × List Message) :=
  if hasHandler ev then do
    let (s1, e1) ← handleEvent ev s
    let (s2, e2) ← processMessages s1 msgs
    .ok (s2, e1 ++ e2, [])
  else .ok (s, [], msgs)

-- Decidable equality for `Except` results, so that concrete runs of the
-- embedded handlers can be checked by `decide`.
deriving instance DecidableEq for Except

/-! Concrete states and data used by the theorems below. -/

/-- A plain manager state under the production scenario: screen 100x50, no
clients, both singletons empty, debug logging off. -/
def prodState : WMState :=
  { layout := DisplayLayout.Full, display_scenario := DisplayScenario.Production,
    width := 100, height := 50, root := 1, experience_viewport := 2,
    placard := none, loader := none, clients := [], client_parents := [],
    debug_logging := false }

/-- A state under the fullscreen scenario whose current layout is `Fit4k`:
screen 1000x500. -/
def c1State : WMState :=
  { prodState with
      display_scenario := DisplayScenario.Fullscreen,
      layout := DisplayLayout.Fit4k,
      width := 1000,
      height := 500 }

/-- C1 counterexample.  The claim reads "for a Placard under fit4k or
production it returns the literal rectangle (0, 0, 715, 1758)"; `fit4k`
exists only as a `DisplayLayout` (there is no fit4k `DisplayScenario`), and
with the current layout set to `Fit4k` under the fullscreen scenario the
engine returns the 20%-strip rectangle, not the literal one: the inner
tables are selected by `self._display_scenario` alone and the layout value
never influences the result. -/
theorem c1_counterexample :
    c1State.layout = DisplayLayout.Fit4k ∧
    clientGeometry c1State ⟨0, 0, 10, 10⟩ (some ClientType.Placard) false =
      .ok ⟨0, 0, 200, 500⟩ ∧
    (⟨0, 0, 200, 500⟩ : WindowGeometry) ≠ ⟨0, 0, 715, 1758⟩ :=
  ⟨rfl, rfl, by decide⟩

/-- C1 (amended): the Geometry Policy Engine keys its table by client type
and then by display scenario only; the current `DisplayLayout` never
affects the result.  Placard: fullscreen scenario gives the
(0, 0, width/5, height) strip, production gives the literal
(0, 0, 715, 1758), and the table's `Fit4k` row holds that same literal
rectangle but is unreachable because no scenario selects it; generic
(type None, non-floating): fullscreen gives the whole screen, production
gives (978, 0, 3125, height); OffscreenSource gives
(width, 0, desired width, desired height) and OffscreenHack gives
(0, height, desired width, desired height) under every scenario; under the
Center scenario the Placard and generic lookups raise `KeyError`, as does
every lookup for a Loader-typed client. -/
theorem c1_amended :
    (∀ (s : WMState) (l : DisplayLayout) (d : WindowGeometry)
        (t : Option ClientType) (f : Bool),
      clientGeometry { s with layout := l } d t f = clientGeometry s d t f) ∧
    (∀ (s : WMState) (d : WindowGeometry) (f : Bool),
      clientGeometry { s with display_scenario := DisplayScenario.Fullscreen } d
          (some ClientType.Placard) f =
        .ok ⟨0, 0, ((s.width / 5 : Nat) : Int), (s.height : Int)⟩) ∧
    (∀ (s : WMState) (d : WindowGeometry) (f : Bool),
      clientGeometry { s with display_scenario := DisplayScenario.Production } d
          (some ClientType.Placard) f = .ok ⟨0, 0, 715, 1758⟩) ∧
    ((placardGeometryTable.find? fun e => e.1 == DisplayLayout.Fit4k) =
      some (DisplayLayout.Fit4k, GeometryEntry.const 0 0 715 1758)) ∧
    (∀ (s : WMState) (d : WindowGeometry) (f : Bool),
      clientGeometry { s with display_scenario := DisplayScenario.Center } d
          (some ClientType.Placard) f = .error .keyError) ∧
    (∀ (s : WMState) (d : WindowGeometry),
      clientGeometry { s with display_scenario := DisplayScenario.Fullscreen } d
          none false = .ok ⟨0, 0, (s.width : Int), (s.height : Int)⟩) ∧
    (∀ (s : WMState) (d : WindowGeometry),
      clientGeometry { s with display_scenario := DisplayScenario.Production } d
          none false = .ok ⟨978, 0, 3125, (s.height : Int)⟩) ∧
    (∀ (s : WMState) (d : WindowGeometry),
      clientGeometry { s with display_scenario := DisplayScenario.Center } d
          none false = .error .keyError) ∧
    (∀ (s : WMState) (d : WindowGeometry) (f : Bool),
      clientGeometry s d (some ClientType.OffscreenSource) f =
        .ok ⟨(s.width : Int), 0, d.width, d.height⟩) ∧
    (∀ (s : WMState) (d : WindowGeometry) (f : Bool),
      clientGeometry s d (some ClientType.OffscreenHack) f =
        .ok ⟨0, (s.height : Int), d.width, d.height⟩) ∧
    (∀ (s : WMState) (d : WindowGeometry) (f : Bool),
      clientGeometry s d (some ClientType.Loader) f = .error .keyError) := by
  refine ⟨?_, ?_, ?_, rfl, ?_, ?_, ?_, ?_, ?_, ?_, ?_⟩
  · intro s l d t f
    obtain ⟨lay, sc, w, h, rt, ev, pl, lo, cl, cp, dbg⟩ := s
    cases t with
    | none => cases f <;> cases sc <;> rfl
    | some ct => cases ct <;> cases sc <;> rfl
  · intro s d f; rfl
  · intro s d f; rfl
  · intro s d f; rfl
  · intro s d; rfl
  · intro s d; rfl
  · intro s d; rfl
  · intro s d f; rfl
  · intro s d f; rfl
  · intro s d f; rfl

/-- C9: a client with no type and the floating flag set gets its desired
geometry back unchanged, bypassing the table; and for every other
(type, floating) combination there are inputs on which the engine does not
return the desired geometry unchanged. -/
theorem c9_floating_bypass :
    (∀ (s : WMState) (d : WindowGeometry),
      clientGeometry s d none true = .ok d) ∧
    (∀ (t : Option ClientType) (f : Bool), ¬(t = none ∧ f = true) →
      ∃ (s : WMState) (d : WindowGeometry),
        clientGeometry s d t f ≠ .ok d) := by
  constructor
  · intro s d; rfl
  · intro t f h
    refine ⟨prodState, ⟨1, 2, 3, 4⟩, ?_⟩
    cases t with
    | none =>
      cases f with
      | false => decide
      | true => exact absurd ⟨rfl, rfl⟩ h
    | some ct => cases ct <;> cases f <;> decide

/-- C9 witness: the Placard/floating combination is one where the engine
does not hand back the desired geometry. -/
theorem c9_witness :
    ∃ (s : WMState) (d : WindowGeometry),
      clientGeometry s d (some ClientType.Placard) false ≠ .ok d :=
  c9_floating_bypass.2 (some ClientType.Placard) false (by simp)

/-- A title that both matches the offscreen-hack pattern and contains the
placard marker. -/
def hackPlacardTitle : String := "FOOTRON_PLACARD is sharing your screen"

/-- C4: the classifier applies its rules in this exact first-match-wins
order — offscreen-hack regex, then offscreen-source substring, then placard
substring, then loader substring, then `None` (with an empty or absent
title short-circuiting to `None`); in particular a title that matches an
offscreen-hack pattern and also contains the placard marker classifies as
`OffscreenHack`. -/
theorem c4_classifier_order :
    (clientTypeFromTitle none = none) ∧
    (clientTypeFromTitle (some "") = none) ∧
    (∀ t : String, t ≠ "" → reMatchOffscreenHack t.data = true →
      clientTypeFromTitle (some t) = some ClientType.OffscreenHack) ∧
    (∀ t : String, t ≠ "" → reMatchOffscreenHack t.data = false →
      containsSub OFFSCREEN_SOURCE_WINDOW_NAME t = true →
      clientTypeFromTitle (some t) = some ClientType.OffscreenSource) ∧
    (∀ t : String, t ≠ "" → reMatchOffscreenHack t.data = false →
      containsSub OFFSCREEN_SOURCE_WINDOW_NAME t = false →
      containsSub PLACARD_WINDOW_NAME t = true →
      clientTypeFromTitle (some t) = some ClientType.Placard) ∧
    (∀ t : String, t ≠ "" → reMatchOffscreenHack t.data = false →
      containsSub OFFSCREEN_SOURCE_WINDOW_NAME t = false →
      containsSub PLACARD_WINDOW_NAME t = false →
      containsSub LOADER_WINDOW_NAME t = true →
      clientTypeFromTitle (some t) = some ClientType.Loader) ∧
    (∀ t : String, reMatchOffscreenHack t.data = false →
      containsSub OFFSCREEN_SOURCE_WINDOW_NAME t = false →
      containsSub PLACARD_WINDOW_NAME t = false →
      containsSub LOADER_WINDOW_NAME t = false →
      clientTypeFromTitle (some t) = none) ∧
    (containsSub PLACARD_WINDOW_NAME hackPlacardTitle = true) ∧
    (reMatchOffscreenHack hackPlacardTitle.data = true) ∧
    (clientTypeFromTitle (some hackPlacardTitle) = some ClientType.OffscreenHack) := by
  refine ⟨rfl, rfl, ?_, ?_, ?_, ?_, ?_, by decide, by decide, rfl⟩
  · intro t h1 h2
    simp [clientTypeFromTitle, h1, h2]
  · intro t h1 h2 h3
    simp [clientTypeFromTitle, h1, h2, h3]
  · intro t h1 h2 h3 h4
    simp [clientTypeFromTitle, h1, h2, h3, h4]
  · intro t h1 h2 h3 h4 h5
    simp [clientTypeFromTitle, h1, h2, h3, h4, h5]
  · intro t h2 h3 h4 h5
    by_cases h1 : t = ""
    · simp [clientTypeFromTitle, h1]
    · simp [clientTypeFromTitle, h1, h2, h3, h4, h5]

/-- C4 witness: a concrete title matching the offscreen-hack pattern
classifies as `OffscreenHack` through the first rule. -/
theorem c4_witness :
    clientTypeFromTitle (some "X is sharing a window") = some ClientType.OffscreenHack :=
  c4_classifier_order.2.2.1 "X is sharing a window" (by decide) (by decide)

/-- The `clear_viewport` loop kills exactly the clients whose type is in
the clear set and whose creation time is at or before the cutoff, in
registry order, and counts the in-set clients newer than the cutoff as
skipped. -/
theorem clearViewportLoop_spec (ct : List (Option ClientType)) (before : Int)
    (l : List (Nat × Client)) :
    clearViewportLoop ct before l =
      ((l.filter fun p => ct.contains p.2.type && decide (p.2.created_at ≤ before)).map
          (fun p => Effect.killClient p.2.target),
       (l.filter fun p => ct.contains p.2.type && decide (p.2.created_at ≤ before)).length,
       (l.filter fun p => ct.contains p.2.type && decide (before < p.2.created_at)).length) := by
  induction l with
  | nil => rfl
  | cons hd tl ih =>
    obtain ⟨wid, c⟩ := hd
    by_cases h1 : c.type ∈ ct
    · have h1b : ct.contains c.type = true := by simpa using h1
      by_cases h2 : before < c.created_at
      · have h3 : ¬(c.created_at ≤ before) := not_le.mpr h2
        simp [clearViewportLoop, ih, h1, h1b, h2, h3, List.filter_cons]
      · have h3 : c.created_at ≤ before := not_lt.mp h2
        simp [clearViewportLoop, ih, h1, h1b, h2, h3, List.filter_cons]
    · have h1b : ct.contains c.type = false := by simpa using h1
      simp [clearViewportLoop, ih, h1, h1b, List.filter_cons]

/-- C5: `clear_viewport(before, include)` leaves the whole manager state —
registry, geometries, singletons, layout — untouched; it issues a kill
(client-initiated close) for exactly the registered clients whose type is
in the include set (the fixed default set when the argument is absent) and
whose `created_at` is at or before the cutoff, followed only by the
client-list republish and the stacking-order raises; and it counts as
skipped exactly the in-set clients created strictly after the cutoff. -/
theorem c5_clear_viewport (before : Int)
    (include_types : Option (List (Option ClientType))) (s : WMState) :
    (clearViewport before include_types s).1 = s ∧
    (clearViewport before include_types s).2.1 =
      (s.clients.filter fun p =>
          (include_types.getD DEFAULT_CLEAR_TYPES).contains p.2.type &&
            decide (p.2.created_at ≤ before)).map
        (fun p => Effect.killClient p.2.target) ++
      [Effect.setClientList (clientIds s)] ++ preserveWindowOrder s ∧
    (clearViewport before include_types s).2.2.1 =
      (s.clients.filter fun p =>
          (include_types.getD DEFAULT_CLEAR_TYPES).contains p.2.type &&
            decide (p.2.created_at ≤ before)).length ∧
    (clearViewport before include_types s).2.2.2 =
      (s.clients.filter fun p =>
          (include_types.getD DEFAULT_CLEAR_TYPES).contains p.2.type &&
            decide (before < p.2.created_at)).length := by
  simp [clearViewport, clearViewportLoop_spec]

/-- `_setup_workarea` always raises `TypeError`: it calls the production
entry of the generic table with only the `layout` keyword, while that
lambda requires `height`. -/
theorem setupWorkarea_typeError (s : WMState) :
    setupWorkarea s = .error .typeError := rfl

/-- C8: `set_layout` with the current layout is a no-op — the state is
returned unchanged and no display-server call is issued; consequently a
second `set_layout` with the same layout as any *successful* first call
performs zero protocol mutations and leaves the state unchanged. -/
theorem c8_set_layout_noop :
    (∀ (layout : DisplayLayout) (after : Option Int) (s : WMState),
      layout = s.layout → setLayout layout after s = .ok (s, [])) ∧
    (∀ (layout : DisplayLayout) (a a' : Option Int) (s s' : WMState)
        (effs : List Effect),
      setLayout layout a s = .ok (s', effs) →
      setLayout layout a' s' = .ok (s', [])) := by
  constructor
  · intro layout after s h
    simp [setLayout, h]
  · intro layout a a' s s' effs h
    by_cases hl : layout = s.layout
    · rw [setLayout, if_pos hl] at h
      have h2 := Except.ok.inj h
      have hs : s = s' := congrArg Prod.fst h2
      subst hs
      simp [setLayout, hl]
    · rw [setLayout, if_neg hl] at h
      exact Except.noConfusion h

/-- C8 witness: setting the already-current layout on a concrete state is
accepted as a no-op, and repeating it is again a no-op. -/
theorem c8_witness : setLayout DisplayLayout.Full none prodState = .ok (prodState, []) :=
  c8_set_layout_noop.2 DisplayLayout.Full none none prodState prodState []
    (c8_set_layout_noop.1 DisplayLayout.Full none prodState rfl)

/-- C2 (amended): provided the message carries a `type` key, every message
that fails one of the validations `_handle_message` actually performs is
logged and dropped with no state mutation and no effect: a `layout` message
with a missing or non-string `layout` or with a present non-integer,
non-null `after` (an explicit JSON null `after` is treated as an absent
cutoff and the message proceeds); a `clear_viewport` message with a
missing or non-integer `before`; and any message whose `type` value is not
`"layout"` or `"clear_viewport"`.  (A message with *no* `type` key instead
raises `KeyError`, and a `clear_viewport` message with a malformed
`include` raises out of the handler — see the counterexample.) -/
theorem c2_amended (msg : Message) (s : WMState) (mt : JsonValue)
    (hty : dictLookup "type" msg = some mt)
    (hmal :
      (mt ≠ JsonValue.str "layout" ∧ mt ≠ JsonValue.str "clear_viewport") ∨
      (mt = JsonValue.str "layout" ∧
        (dictLookup "layout" msg = none ∨
         (∃ v, dictLookup "layout" msg = some v ∧ v.isStr = false) ∨
         (∃ v, dictLookup "after" msg = some v ∧ v.isInt = false ∧
           v ≠ JsonValue.null))) ∨
      (mt = JsonValue.str "clear_viewport" ∧
        (dictLookup "before" msg = none ∨
         (∃ v, dictLookup "before" msg = some v ∧ v.isInt = false)))) :
    handleMessage msg s = .ok (s, []) := by
  unfold handleMessage
  rw [hty]
  dsimp only
  rcases hmal with ⟨h1, h2⟩ | ⟨hmt, hbad⟩ | ⟨hmt, hbad⟩
  · rw [if_neg h1, if_neg h2]
  · subst hmt
    rw [if_pos rfl]
    rcases hbad with hnone | ⟨v, hv, hvs⟩ | ⟨v, hv, hvi, hvn⟩
    · rw [hnone]
    · rw [hv]
      cases v <;> simp_all [JsonValue.isStr]
    · have hv2 : lookupOptional "after" msg = some v := by
        unfold lookupOptional
        rw [hv]
        cases v
        case null => exact absurd rfl hvn
        all_goals rfl
      cases hlay : dictLookup "layout" msg with
      | none => rfl
      | some lv =>
        cases lv <;> try rfl
        rw [hv2]
        simp [hvi]
  · subst hmt
    rw [if_neg (by decide), if_pos rfl]
    rcases hbad with hnone | ⟨v, hv, hvi⟩
    · rw [hnone]
    · rw [hv]
      simp [hvi]

/-- C2 counterexample: a message with no `type` key at all — a missing
required field — is not logged-and-dropped; `message["type"]` raises
`KeyError`, which `_process_messages` does not catch, so it propagates into
the control loop. -/
theorem c2_counterexample :
    dictLookup "type" [("before", JsonValue.int 5)] = none ∧
    handleMessage [("before", JsonValue.int 5)] prodState = .error .keyError :=
  ⟨rfl, rfl⟩

/-- C2 witness: a `layout` message missing its `layout` field is dropped
with no state change and no effect. -/
theorem c2_witness :
    handleMessage [("type", JsonValue.str "layout")] prodState = .ok (prodState, []) :=
  c2_amended [("type", JsonValue.str "layout")] prodState (JsonValue.str "layout")
    rfl (Or.inr (Or.inl ⟨rfl, Or.inl rfl⟩))

/-- Size hints carrying both the position flag and the max-size flag
(`PPosition | PMaxSize` = 36) and the rectangle (10, 20, 300, 400). -/
def c3Hints : ExtendedWMNormalHints :=
  { flags := 36, x := 10, y := 20, max_width := 300, max_height := 400 }

/-- A tracked generic client, target window 7, wrapper 17, with desired
geometry (1, 1, 1, 1). -/
def c3Client : Client :=
  { target := 7, parent := 17, geometry := ⟨0, 0, 1, 1⟩,
    desired_geometry := ⟨1, 1, 1, 1⟩, title := some "experience",
    type := none, floating := false, created_at := 0, ignore_unmaps := 0 }

/-- `c3Client` tracked by a production-scenario manager with debug logging
off (log level INFO or higher). -/
def c3State : WMState :=
  { prodState with clients := [(7, c3Client)], client_parents := [17] }

/-- The same state with debug logging enabled. -/
def c3StateDebug : WMState := { c3State with debug_logging := true }

/-- C3 (code bug): the hints carry both the position and the max-size
flags, yet with debug logging off the WM_NORMAL_HINTS property event
leaves the client's `desired_geometry` (and the whole state) unchanged,
because the source nests the update inside `if self._debug_logging:`
(wm.py lines 474-485); with debug logging on the update does happen — and
it also happens for hints with no flags at all, since this handler never
checks them.  The claim (update iff both flags present, independent of
verbosity) describes the evident intent, not the code. -/
theorem c3_codebug :
    c3Hints.flags &&& (PPosition ||| PMaxSize) = 36 ∧
    handlePropertyNotify 7 false PropAtom.normalHints none (some c3Hints) c3State =
      .ok (c3State, []) ∧
    (handlePropertyNotify 7 false PropAtom.normalHints none (some c3Hints)
        c3StateDebug).map
        (fun p => (dictLookup 7 p.1.clients).map Client.desired_geometry) =
      .ok (some ⟨10, 20, 300, 400⟩) ∧
    (handlePropertyNotify 7 false PropAtom.normalHints none
        (some { c3Hints with flags := 0 }) c3StateDebug).map
        (fun p => (dictLookup 7 p.1.clients).map Client.desired_geometry) =
      .ok (some ⟨10, 20, 300, 400⟩) :=
  ⟨rfl, rfl, rfl, rfl⟩

/-- Updating the entry stored under a present key makes lookup return the
new value. -/
theorem dictLookup_update_self (l : List (Nat × Client)) (k : Nat) (c c' : Client)
    (h : dictLookup k l = some c) :
    dictLookup k (updateClientEntry l k c') = some c' := by
  induction l with
  | nil => exact absurd h (by simp [dictLookup])
  | cons hd tl ih =>
    obtain ⟨k2, v⟩ := hd
    by_cases hk : k2 = k
    · subst hk
      simp only [updateClientEntry, List.map_cons]
      rw [if_pos trivial]
      rw [dictLookup]
      simp
    · rw [dictLookup] at h
      rw [if_neg (by simpa using hk)] at h
      simp only [updateClientEntry, List.map_cons, if_neg hk]
      rw [dictLookup, if_neg (by simpa using hk)]
      exact ih h

/-- After deleting a key, looking it up fails. -/
theorem dictLookup_remove_self (l : List (Nat × Client)) (k : Nat) :
    dictLookup k (removeClientEntry l k) = none := by
  induction l with
  | nil => rfl
  | cons hd tl ih =>
    obtain ⟨k2, v⟩ := hd
    by_cases hk : k2 = k
    · simp [removeClientEntry, List.filter_cons, hk] at ih ⊢
      simpa [removeClientEntry] using ih
    · simp only [removeClientEntry, List.filter_cons] at ih ⊢
      rw [if_pos (by simpa using hk)]
      rw [dictLookup, if_neg (by simpa using hk)]
      exact ih

/-- Deleting one key leaves lookups of other keys unchanged. -/
theorem dictLookup_remove_ne (l : List (Nat × Client)) (k k' : Nat) (h : k' ≠ k) :
    dictLookup k' (removeClientEntry l k) = dictLookup k' l := by
  induction l with
  | nil => rfl
  | cons hd tl ih =>
    obtain ⟨k2, v⟩ := hd
    by_cases hk : k2 = k
    · subst hk
      simp only [removeClientEntry, List.filter_cons]
      rw [if_neg (by simp)]
      rw [dictLookup, if_neg (by simpa using (Ne.symm (by simpa using h)))]
      simpa [removeClientEntry] using ih
    · simp only [removeClientEntry, List.filter_cons] at ih ⊢
      rw [if_pos (by simpa using hk)]
      by_cases hk2 : k2 = k'
      · subst hk2
        simp [dictLookup]
      · rw [dictLookup, if_neg (by simpa using hk2)]
        rw [dictLookup, if_neg (by simpa using hk2)]
        simpa [removeClientEntry] using ih

/-- The suppression branch of `_handle_unmap_notify`: a positive
`ignore_unmaps` counter is decremented and nothing else happens. -/
theorem handleUnmap_decrement (s : WMState) (window : Nat) (client : Client)
    (hcp : s.client_parents.contains window = false)
    (hcl : dictLookup window s.clients = some client)
    (hpos : client.ignore_unmaps > 0) :
    handleUnmapNotify window s =
      .ok ({ s with clients := updateClientEntry s.clients window { client with ignore_unmaps := client.ignore_unmaps - 1 } }, []) := by
  unfold handleUnmapNotify
  rw [hcp]
  simp only [Bool.false_eq_true, if_false]
  rw [hcl]
  dsimp only
  rw [if_pos hpos]

/-- The removal branch of `_handle_unmap_notify`: with a zero counter the
client is deleted, its wrapper untracked and destroyed, the singleton of
its type (if Placard or Loader) cleared, the client list republished and
the stacking order restored. -/
theorem handleUnmap_remove (s : WMState) (window : Nat) (client : Client)
    (hcp : s.client_parents.contains window = false)
    (hcl : dictLookup window s.clients = some client)
    (hzero : client.ignore_unmaps = 0)
    (hpar : s.client_parents.contains client.parent = true) :
    ∃ s', handleUnmapNotify window s =
        .ok (s', [Effect.destroyWindow client.parent,
                  Effect.setClientList (clientIds s')] ++ preserveWindowOrder s')
      ∧ s'.clients = removeClientEntry s.clients window
      ∧ s'.client_parents = s.client_parents.erase client.parent
      ∧ s'.placard = (if client.type = some ClientType.Placard then none else s.placard)
      ∧ s'.loader = (if client.type = some ClientType.Loader then none else s.loader)
      ∧ dictLookup window s'.clients = none := by
  have hstart : handleUnmapNotify window s =
      (let s1 :=
        if client.type = some ClientType.Placard then { s with placard := none }
        else if client.type = some ClientType.Loader then { s with loader := none }
        else s
      if s1.client_parents.contains client.parent then
        let s2 := { s1 with
          client_parents := s1.client_parents.erase client.parent,
          clients := removeClientEntry s1.clients window }
        .ok (s2, [Effect.destroyWindow client.parent,
                  Effect.setClientList (clientIds s2)] ++ preserveWindowOrder s2)
      else .error .keyError) := by
    unfold handleUnmapNotify
    rw [hcp]
    simp only [Bool.false_eq_true, if_false]
    rw [hcl]
    dsimp only
    rw [if_neg (by omega)]
  by_cases hP : client.type = some ClientType.Placard
  · rw [hstart]
    simp only [hP, if_pos rfl]
    rw [if_pos (by simpa using hpar)]
    refine ⟨_, rfl, rfl, rfl, ?_, ?_, dictLookup_remove_self _ _⟩
    · simp [hP]
    · simp [hP]
  · by_cases hL : client.type = some ClientType.Loader
    · rw [hstart]
      simp only [if_neg hP, hL, if_pos rfl]
      rw [if_pos (by simpa using hpar)]
      refine ⟨_, rfl, rfl, rfl, ?_, ?_, dictLookup_remove_self _ _⟩
      · simp [hP]
      · simp [hL]
    · rw [hstart]
      simp only [if_neg hP, if_neg hL]
      rw [if_pos (by simpa using hpar)]
      refine ⟨_, rfl, rfl, rfl, ?_, ?_, dictLookup_remove_self _ _⟩
      · simp [hP]
      · simp [hL]

/-- C7 (amended): for a registered client receiving a non-wrapper unmap
event, a positive `ignore_unmaps` counter is decremented by one and
nothing else changes; with a zero counter the client is removed from the
registry, its wrapper destroyed and untracked, the Placard (resp. Loader)
singleton cleared exactly when the unmapped client's *type* field is
Placard (resp. Loader) — the handler matches on the type, not on whether
this client is the tracked singleton — the client list is republished and
the stacking order restored; and a client with `ignore_unmaps = 2`
survives two unmap events and is removed by a third. -/
theorem c7_unmap_amended :
    (∀ (s : WMState) (window : Nat) (client : Client),
      s.client_parents.contains window = false →
      dictLookup window s.clients = some client →
      (client.ignore_unmaps > 0 →
        handleUnmapNotify window s =
          .ok ({ s with clients := updateClientEntry s.clients window { client with ignore_unmaps := client.ignore_unmaps - 1 } }, [])) ∧
      (client.ignore_unmaps = 0 → s.client_parents.contains client.parent = true →
        ∃ s', handleUnmapNotify window s =
            .ok (s', [Effect.destroyWindow client.parent,
                      Effect.setClientList (clientIds s')] ++ preserveWindowOrder s')
          ∧ s'.clients = removeClientEntry s.clients window
          ∧ s'.client_parents = s.client_parents.erase client.parent
          ∧ s'.placard = (if client.type = some ClientType.Placard then none else s.placard)
          ∧ s'.loader = (if client.type = some ClientType.Loader then none else s.loader)
          ∧ dictLookup window s'.clients = none)) ∧
    (∀ (s : WMState) (window : Nat) (client : Client),
      s.client_parents.contains window = false →
      dictLookup window s.clients = some client →
      client.ignore_unmaps = 2 →
      s.client_parents.contains client.parent = true →
      ∃ s1 s2, handleUnmapNotify window s = .ok (s1, [])
        ∧ (dictLookup window s1.clients).map Client.ignore_unmaps = some 1
        ∧ handleUnmapNotify window s1 = .ok (s2, [])
        ∧ (dictLookup window s2.clients).map Client.ignore_unmaps = some 0
        ∧ ∃ s3 effs, handleUnmapNotify window s2 = .ok (s3, effs)
            ∧ dictLookup window s3.clients = none) := by
  constructor
  · intro s window client hcp hcl
    exact ⟨handleUnmap_decrement s window client hcp hcl,
      fun hzero hpar => handleUnmap_remove s window client hcp hcl hzero hpar⟩
  · intro s window client hcp hcl h2 hpar
    have f1 := handleUnmap_decrement s window client hcp hcl (by omega)
    have hcl1 : dictLookup window
        (updateClientEntry s.clients window { client with ignore_unmaps := client.ignore_unmaps - 1 }) =
        some { client with ignore_unmaps := client.ignore_unmaps - 1 } :=
      dictLookup_update_self s.clients window client _ hcl
    have f2 := handleUnmap_decrement
      { s with clients := updateClientEntry s.clients window { client with ignore_unmaps := client.ignore_unmaps - 1 } }
      window { client with ignore_unmaps := client.ignore_unmaps - 1 }
      hcp hcl1 (by show client.ignore_unmaps - 1 > 0; omega)
    have hcl2 : dictLookup window
        (updateClientEntry
          (updateClientEntry s.clients window { client with ignore_unmaps := client.ignore_unmaps - 1 })
          window { client with ignore_unmaps := client.ignore_unmaps - 1 - 1 }) =
        some { client with ignore_unmaps := client.ignore_unmaps - 1 - 1 } :=
      dictLookup_update_self _ window
        { client with ignore_unmaps := client.ignore_unmaps - 1 } _ hcl1
    obtain ⟨s3, f3, -, -, -, -, hnone⟩ :=
      handleUnmap_remove
        { s with clients := updateClientEntry (updateClientEntry s.clients window { client with ignore_unmaps := client.ignore_unmaps - 1 }) window { client with ignore_unmaps := client.ignore_unmaps - 1 - 1 } }
        window { client with ignore_unmaps := client.ignore_unmaps - 1 - 1 }
        hcp hcl2 (by show client.ignore_unmaps - 1 - 1 = 0; omega) hpar
    refine ⟨_, _, f1, ?_, f2, ?_, s3, _, f3, hnone⟩
    · dsimp only
      rw [hcl1]
      simp [h2]
    · dsimp only
      rw [hcl2]
      simp [h2]

/-- A client that is tracked as the Placard singleton but whose `type`
field is `None` — the state a Placard window reaches after its title is
changed to a generic one (`_handle_property_notify` re-types and reparents
it but never clears the singleton). -/
def c7cClient : Client :=
  { target := 7, parent := 17, geometry := ⟨0, 0, 1, 1⟩,
    desired_geometry := ⟨0, 0, 1, 1⟩, title := some "experience",
    type := none, floating := false, created_at := 0, ignore_unmaps := 0 }

/-- A state in which `c7cClient` is registered and holds the Placard
singleton role. -/
def c7cState : WMState :=
  { prodState with
      clients := [(7, c7cClient)],
      client_parents := [17],
      placard := some c7cClient }

/-- C7 counterexample: the unmapped client holds the Placard role (it *is*
the tracked singleton), its unmap removes it from the registry, yet the
Placard singleton is not cleared — the handler matches on the client's
`type` field (here `None`), not on role ownership, so the singleton is
left pointing at a no-longer-registered client. -/
theorem c7_counterexample :
    c7cState.placard = some c7cClient ∧
    c7cClient.target = 7 ∧
    c7cClient.ignore_unmaps = 0 ∧
    (handleUnmapNotify 7 c7cState).map
        (fun p => (p.1.placard, dictLookup 7 p.1.clients)) =
      .ok (some c7cClient, none) :=
  ⟨rfl, rfl, rfl, rfl⟩

/-- C7 witness: a concrete Placard client with `ignore_unmaps = 2`
survives two unmap events and is removed by a third. -/
theorem c7_witness :
    ∃ s1 s2, handleUnmapNotify 5 { prodState with clients := [(5, { target := 5, parent := 15, geometry := ⟨0, 0, 1, 1⟩, desired_geometry := ⟨0, 0, 1, 1⟩, title := none, type := some ClientType.Placard, floating := false, created_at := 0, ignore_unmaps := 2 })], client_parents := [15] } = .ok (s1, [])
      ∧ (dictLookup 5 s1.clients).map Client.ignore_unmaps = some 1
      ∧ handleUnmapNotify 5 s1 = .ok (s2, [])
      ∧ (dictLookup 5 s2.clients).map Client.ignore_unmaps = some 0
      ∧ ∃ s3 effs, handleUnmapNotify 5 s2 = .ok (s3, effs)
          ∧ dictLookup 5 s3.clients = none :=
  c7_unmap_amended.2 _ 5 _ rfl rfl rfl rfl

/-- C10: when a real unmap removes a registered client whose `type` is
Placard, the tracked Placard singleton is set to `None` unconditionally —
even when the singleton currently points at a *different* client — and
that other client stays registered; symmetrically for the Loader
singleton. -/
theorem c10_singleton_type_match :
    ∀ (s : WMState) (window : Nat) (c1 c2 : Client),
      s.client_parents.contains window = false →
      dictLookup window s.clients = some c1 →
      c1.ignore_unmaps = 0 →
      s.client_parents.contains c1.parent = true →
      ((c1.type = some ClientType.Placard → s.placard = some c2 → c2.target ≠ window →
        ∃ s' effs, handleUnmapNotify window s = .ok (s', effs) ∧ s'.placard = none ∧
          dictLookup c2.target s'.clients = dictLookup c2.target s.clients) ∧
       (c1.type = some ClientType.Loader → s.loader = some c2 → c2.target ≠ window →
        ∃ s' effs, handleUnmapNotify window s = .ok (s', effs) ∧ s'.loader = none ∧
          dictLookup c2.target s'.clients = dictLookup c2.target s.clients)) := by
  intro s window c1 c2 hcp hcl hzero hpar
  obtain ⟨s', hrun, hclients, -, hplacard, hloader, -⟩ :=
    handleUnmap_remove s window c1 hcp hcl hzero hpar
  constructor
  · intro hP hsp hne
    refine ⟨s', _, hrun, ?_, ?_⟩
    · rw [hplacard, if_pos hP]
    · rw [hclients]
      exact dictLookup_remove_ne s.clients window c2.target hne
  · intro hL hsl hne
    refine ⟨s', _, hrun, ?_, ?_⟩
    · rw [hloader, if_pos hL]
    · rw [hclients]
      exact dictLookup_remove_ne s.clients window c2.target hne

/-- An old Placard-typed client that no longer holds the singleton. -/
def c10Old : Client :=
  { target := 7, parent := 17, geometry := ⟨0, 0, 1, 1⟩,
    desired_geometry := ⟨0, 0, 1, 1⟩, title := some "FOOTRON_PLACARD",
    type := some ClientType.Placard, floating := false, created_at := 0,
    ignore_unmaps := 0 }

/-- A newer Placard-typed client that currently holds the singleton. -/
def c10New : Client :=
  { target := 8, parent := 18, geometry := ⟨0, 0, 1, 1⟩,
    desired_geometry := ⟨0, 0, 1, 1⟩, title := some "FOOTRON_PLACARD",
    type := some ClientType.Placard, floating := false, created_at := 1,
    ignore_unmaps := 0 }

/-- Both Placard-typed clients registered, the newer one tracked as the
singleton (last-write-wins). -/
def c10State : WMState :=
  { prodState with
      clients := [(7, c10Old), (8, c10New)],
      client_parents := [17, 18],
      placard := some c10New }

/-- C10 witness: unmapping the older, no-longer-tracked Placard client
clears the singleton even though the newer Placard client stays
registered. -/
theorem c10_witness :
    ∃ s' effs, handleUnmapNotify 7 c10State = .ok (s', effs) ∧ s'.placard = none ∧
      dictLookup 8 s'.clients = dictLookup 8 c10State.clients :=
  (c10_singleton_type_match c10State 7 c10Old c10New rfl rfl rfl rfl).1
    rfl rfl (by decide)

/-- One command applied to an accumulated (state, effects) pair — the
functional reading of a single `_process_messages` iteration. -/
def drainStep (p : WMState × List Effect) (m : Message) :
    Except PyError (WMState × List Effect) :=
  (handleMessage m p.1).map fun q => (q.1, p.2 ++ q.2)

/-- `_process_messages` is the left fold of `_handle_message` over the
queued messages: every queued message is applied, in order, to the
accumulated state. -/
theorem processMessages_eq_foldlM (msgs : List Message) (s : WMState)
    (acc : List Effect) :
    List.foldlM drainStep (s, acc) msgs =
      (match processMessages s msgs with
       | .error e => .error e
       | .ok p => .ok (p.1, acc ++ p.2)) := by
  induction msgs generalizing s acc with
  | nil =>
    show Except.ok (s, acc) = Except.ok (s, acc ++ ([] : List Effect))
    rw [List.append_nil]
  | cons m rest ih =>
    rw [List.foldlM, processMessages]
    cases hm : handleMessage m s with
    | error e =>
      rw [show drainStep (s, acc) m = .error e from by simp only [drainStep, hm]; rfl]
      rfl
    | ok p =>
      obtain ⟨s1, e1⟩ := p
      rw [show drainStep (s, acc) m = .ok (s1, acc ++ e1) from by simp only [drainStep, hm]; rfl]
      show List.foldlM drainStep (s1, acc ++ e1) rest =
        (match (processMessages s1 rest >>= fun d => Except.ok (d.1, e1 ++ d.2) :
            Except PyError (WMState × List Effect)) with
         | .error e => .error e
         | .ok p => .ok (p.1, acc ++ p.2))
      rw [ih]
      cases hrest : processMessages s1 rest with
      | error e => rfl
      | ok q =>
        show Except.ok (q.1, acc ++ e1 ++ q.2) = Except.ok (q.1, acc ++ (e1 ++ q.2))
        rw [List.append_assoc]

/-- C6 counterexample: an iteration that receives an event kind with no
configured handler hits `continue` (wm.py line 906) and skips
`_process_messages`: the iteration completes non-fatally with the state
untouched and no effect issued, but the — non-empty — command queue is
left undrained rather than drained to empty. -/
theorem c6_counterexample :
    loopStep (XEvent.unknown 99) [[("type", JsonValue.str "nonsense")]] prodState =
      .ok (prodState, [], [[("type", JsonValue.str "nonsense")]]) ∧
    ([[("type", JsonValue.str "nonsense")]] : List Message) ≠ [] :=
  ⟨rfl, by simp⟩

/-- C6 (amended): an event kind with no configured handler is logged and
ignored — never fatal, the state unchanged — but its iteration skips the
queue drain entirely, leaving every queued message for a later iteration;
whenever an iteration for a *configured* event kind completes (reaching
the point where `_loop` blocks for the next event), the event was handled
first and the entire command queue was then drained to empty — every
queued message folded, in order, into the post-event state — with the
iteration's effects being the event's effects followed by the drain's
effects. -/
theorem c6_amended :
    (∀ (code : Nat) (msgs : List Message) (s : WMState),
      loopStep (XEvent.unknown code) msgs s = .ok (s, [], msgs)) ∧
    (∀ (ev : XEvent) (msgs : List Message) (s : WMState)
        (out : WMState × List Effect × List Message),
      hasHandler ev = true →
      loopStep ev msgs s = .ok out →
      out.2.2 = [] ∧
      ∃ s1 e1 e2, handleEvent ev s = .ok (s1, e1) ∧
        List.foldlM drainStep (s1, ([] : List Effect)) msgs = .ok (out.1, e2) ∧
        out.2.1 = e1 ++ e2) := by
  constructor
  · intro code msgs s; rfl
  · intro ev msgs s out hh h
    rw [loopStep, if_pos hh] at h
    cases hEv : handleEvent ev s with
    | error e =>
      rw [hEv] at h
      exact Except.noConfusion h
    | ok p =>
      obtain ⟨s1, e1⟩ := p
      rw [hEv] at h
      replace h : (processMessages s1 msgs >>=
          fun d => Except.ok (d.1, e1 ++ d.2, ([] : List Message)) :
          Except PyError (WMState × List Effect × List Message)) = .ok out := h
      cases hpm : processMessages s1 msgs with
      | error e =>
        rw [hpm] at h
        exact Except.noConfusion h
      | ok q =>
        rw [hpm] at h
        have hout := Except.ok.inj h
        refine ⟨?_, s1, e1, q.2, rfl, ?_, ?_⟩
        · rw [← hout]
        · rw [processMessages_eq_foldlM msgs s1 [], hpm, ← hout]
          show Except.ok (q.1, [] ++ q.2) = Except.ok (q.1, q.2)
          rw [List.nil_append]
        · rw [← hout]

/-- C6 witness: an iteration for a configured event kind (a pointer-enter
on window 5) drains the one queued message after handling the event. -/
theorem c6_witness :
    ([] : List Message) = [] ∧
    ∃ s1 e1 e2, handleEvent (XEvent.enterNotify 5) prodState = .ok (s1, e1) ∧
      List.foldlM drainStep (s1, ([] : List Effect))
        [[("type", JsonValue.str "nonsense")]] = .ok (prodState, e2) ∧
      ([Effect.setActiveWindow 5, Effect.setInputFocus 5] : List Effect) = e1 ++ e2 :=
  c6_amended.2 (XEvent.enterNotify 5) [[("type", JsonValue.str "nonsense")]]
    prodState (prodState, [Effect.setActiveWindow 5, Effect.setInputFocus 5], [])
    rfl rfl
